import Mathlib

/-!
Verification of the NSynth naive-Bayes notebook: a shallow embedding of the
record-parsing layer (`parse_tfrecord`), the feature-extraction pipeline
(`extract_features` with its STFT / mel projection / log / time-mean stages),
and the dataset-processing loop (`process_dataset`, `dataset_sizes`).

Record field values that the program stores as float32 are embedded as
rationals at the record layer (they are only moved, never computed with), and
the signal-processing arithmetic is carried out over the reals.
-/

/-- A feature value inside a serialized record: one of the three value-list
kinds of the TF `Example` wire format. -/
inductive FeatureList where
  | int64List (xs : List Int)
  | floatList (xs : List ℚ)
  | bytesList (xs : List String)
deriving DecidableEq

/-- A raw record: a partial map from feature names to feature value lists. -/
def RawRecord : Type := String → Option FeatureList

/-- The result of `parse_tfrecord`: one audio example with its metadata,
mirroring the fourteen features declared in the notebook's
`feature_description`. -/
structure ParsedExample where
  note : Int
  note_str : String
  instrument : Int
  instrument_str : String
  pitch : Int
  velocity : Int
  sample_rate : Int
  audio : List ℚ
  qualities : List Int
  qualities_str : List String
  instrument_family : Int
  instrument_family_str : String
  instrument_source : Int
  instrument_source_str : String

/-- Read a scalar int64 feature (`tf.io.FixedLenFeature([], tf.int64)`):
succeeds exactly when the record holds the name with an int64 list of
length one. -/
def getI (r : RawRecord) (name : String) : Except String Int :=
  match r name with
  | some (FeatureList.int64List [v]) => Except.ok v
  | _ => Except.error (name ++ ": missing or malformed scalar int64 feature")

/-- Read a scalar string feature (`tf.io.FixedLenFeature([], tf.string)`):
succeeds exactly when the record holds the name with a bytes list of
length one. -/
def getS (r : RawRecord) (name : String) : Except String String :=
  match r name with
  | some (FeatureList.bytesList [s]) => Except.ok s
  | _ => Except.error (name ++ ": missing or malformed scalar string feature")

/-- Read the audio feature (`tf.io.FixedLenFeature([64000], tf.float32)`):
succeeds exactly when the record holds a float list of exactly 64000
samples. -/
def getAudio (r : RawRecord) : Except String (List ℚ) :=
  match r ("audio") with
  | some (FeatureList.floatList xs) =>
      if xs.length = 64000 then Except.ok xs
      else Except.error ("audio: shape mismatch, expected 64000 float32 values")
  | _ => Except.error ("audio: missing or malformed float32 feature")

/-- Read the qualities feature (`tf.io.FixedLenFeature([10], tf.int64)`):
succeeds exactly when the record holds an int64 list of exactly 10 values. -/
def getQualities (r : RawRecord) : Except String (List Int) :=
  match r ("qualities") with
  | some (FeatureList.int64List xs) =>
      if xs.length = 10 then Except.ok xs
      else Except.error ("qualities: shape mismatch, expected 10 int64 values")
  | _ => Except.error ("qualities: missing or malformed int64 feature")

/-- Read the variable-length string feature
(`tf.io.VarLenFeature(tf.string)`): an absent feature parses as the empty
list, a present bytes feature parses as its values, and a present feature of
any other kind fails. -/
def getQualStr (r : RawRecord) : Except String (List String) :=
  match r ("qualities_str") with
  | none => Except.ok []
  | some (FeatureList.bytesList xs) => Except.ok xs
  | some _ => Except.error ("qualities_str: malformed string feature")

/-- `parse_tfrecord` from the notebook: `tf.io.parse_single_example` against
the declared `feature_description`, returning the parsed example or the first
failure. -/
def parse_tfrecord (r : RawRecord) : Except String ParsedExample := do
  let note ← getI r ("note")
  let noteStr ← getS r ("note_str")
  let instrument ← getI r ("instrument")
  let instrumentStr ← getS r ("instrument_str")
  let pitch ← getI r ("pitch")
  let velocity ← getI r ("velocity")
  let sampleRate ← getI r ("sample_rate")
  let audio ← getAudio r
  let qualities ← getQualities r
  let qualitiesStr ← getQualStr r
  let instrumentFamily ← getI r ("instrument_family")
  let instrumentFamilyStr ← getS r ("instrument_family_str")
  let instrumentSource ← getI r ("instrument_source")
  let instrumentSourceStr ← getS r ("instrument_source_str")
  return ⟨note, noteStr, instrument, instrumentStr, pitch, velocity, sampleRate,
    audio, qualities, qualitiesStr, instrumentFamily, instrumentFamilyStr,
    instrumentSource, instrumentSourceStr⟩

/-- The notebook's constant `SR = 16000`. -/
def SR : ℕ := 16000

/-- The notebook's constant `FFT_SIZE = 1024`. -/
def FFT_SIZE : ℕ := 1024

/-- The notebook's constant `HOP = 256`. -/
def HOP : ℕ := 256

/-- The notebook's constant `N_MELS = 128`. -/
def N_MELS : ℕ := 128

/-- Number of spectrogram frequency bins produced by a one-sided FFT of
length `FFT_SIZE`: `FFT_SIZE // 2 + 1 = 513`. -/
def numBins : ℕ := FFT_SIZE / 2 + 1

/-- Number of STFT frames for a signal of the given length with
`frame_length = FFT_SIZE`, `frame_step = HOP` and `pad_end=False`. -/
def numFrames (len : ℕ) : ℕ :=
  if FFT_SIZE ≤ len then (len - FFT_SIZE) / HOP + 1 else 0

noncomputable section

/-- The additive epsilon `1e-6` used before the logarithm. -/
def logEps : ℝ := 1e-6

/-- Hertz-to-mel conversion used by `tf.signal.linear_to_mel_weight_matrix`:
`1127 * ln(1 + f / 700)`. -/
def hertzToMel (f : ℝ) : ℝ := 1127.0 * Real.log (1 + f / 700.0)

/-- The notebook's `lower_edge_hertz = 30.0`. -/
def lowerEdgeHertz : ℝ := 30.0

/-- The notebook's `upper_edge_hertz = SR / 2.0 = 8000.0`. -/
def upperEdgeHertz : ℝ := (SR : ℝ) / 2.0

/-- Point `i` of `linspace(hertz_to_mel(lower), hertz_to_mel(upper),
num_mel_bins + 2)`: the mel-scale band edges of the filter bank. -/
def bandEdgeMel (i : ℕ) : ℝ :=
  hertzToMel lowerEdgeHertz +
    (i : ℝ) * (hertzToMel upperEdgeHertz - hertzToMel lowerEdgeHertz) / ((N_MELS : ℝ) + 1)

/-- Linear frequency of spectrogram bin `k`: point `k` of
`linspace(0, SR / 2, numBins)`. -/
def binFreq (k : ℕ) : ℝ := (k : ℝ) * ((SR : ℝ) / 2) / ((numBins : ℝ) - 1)

/-- The notebook's `mel_mat = tf.signal.linear_to_mel_weight_matrix(...)`,
entry at spectrogram bin `k` and mel band `j`: the DC row is zeroed, and
every other entry is the triangular-filter weight
`max(0, min(lower_slope, upper_slope))` computed on the mel scale. -/
def mel_mat (k j : ℕ) : ℝ :=
  if k = 0 then 0
  else
    max 0 (min
      ((hertzToMel (binFreq k) - bandEdgeMel j) / (bandEdgeMel (j + 1) - bandEdgeMel j))
      ((bandEdgeMel (j + 2) - hertzToMel (binFreq k)) / (bandEdgeMel (j + 2) - bandEdgeMel (j + 1))))

/-- The periodic Hann window of length `FFT_SIZE`, the default window of
`tf.signal.stft`: `w(n) = 0.5 - 0.5 * cos(2 * pi * n / FFT_SIZE)`. -/
def hannWindow (n : ℕ) : ℝ :=
  0.5 - 0.5 * Real.cos (2 * Real.pi * (n : ℝ) / (FFT_SIZE : ℝ))

/-- Sample `n` of frame `t` of the signal: the signal value at index
`t * HOP + n` (frames are in range for the lengths produced by `numFrames`,
and out-of-range indices read as zero). -/
def frameSample (audio : List ℚ) (t n : ℕ) : ℝ := ((audio.getD (t * HOP + n) 0 : ℚ) : ℝ)

/-- `tf.signal.stft(audio, frame_length=FFT_SIZE, frame_step=HOP,
fft_length=FFT_SIZE)`: bin `k` of frame `t` is the one-sided DFT of the
Hann-windowed frame. -/
def stft (audio : List ℚ) (t k : ℕ) : ℂ :=
  ∑ n ∈ Finset.range FFT_SIZE,
    ((hannWindow n * frameSample audio t n : ℝ) : ℂ) *
      Complex.exp (-(2 * (Real.pi : ℂ) * Complex.I * (k : ℂ) * (n : ℂ)) / (FFT_SIZE : ℂ))

/-- `spectogram = tf.abs(stft)` (the notebook's spelling): the magnitude
spectrogram. -/
def spectogram (audio : List ℚ) (t k : ℕ) : ℝ := Complex.abs (stft audio t k)

/-- `mel_spec = tf.tensordot(spectogram, mel_mat, axes=1)`: the projection of
each frame's magnitude spectrum onto the mel filter bank. -/
def mel_spec (audio : List ℚ) (t j : ℕ) : ℝ :=
  ∑ k ∈ Finset.range numBins, spectogram audio t k * mel_mat k j

/-- `log_mel_spec = tf.math.log(mel_spec + 1e-6)`. -/
def log_mel_spec (audio : List ℚ) (t j : ℕ) : ℝ :=
  Real.log (mel_spec audio t j + logEps)

/-- `mel = tf.reduce_mean(log_mel_spec, axis=0)`: component `j` of the
time-averaged log-mel summary. -/
def melSummary (audio : List ℚ) (j : ℕ) : ℝ :=
  (∑ t ∈ Finset.range (numFrames audio.length), log_mel_spec audio t j) /
    (numFrames audio.length : ℝ)

/-- `extract_features` from the notebook: the concatenation of the five
float-cast metadata fields with the 128-dimensional mel summary, paired with
the `instrument_family` label. -/
def extract_features (e : ParsedExample) : List ℝ × Int :=
  (([e.note, e.pitch, e.velocity, e.sample_rate, e.instrument_source].map
      (fun v : Int => (v : ℝ))) ++
    List.ofFn (fun j : Fin N_MELS => melSummary e.audio j),
   e.instrument_family)

end

/-- The notebook's `dataset_sizes` dictionary, in insertion order. -/
def dataset_sizes : List (String × ℕ) :=
  [(("train"), 289205), (("valid"), 12678), (("test"), 4096)]

/-- Whether `pat` occurs at the start of `s`, character by character. -/
def prefixMatch : List Char → List Char → Bool
  | [], _ => true
  | _ :: _, [] => false
  | a :: as, b :: bs => a == b && prefixMatch as bs

/-- Whether `pat` occurs anywhere inside `s`. -/
def occursIn (pat : List Char) : List Char → Bool
  | [] => prefixMatch pat []
  | c :: rest => prefixMatch pat (c :: rest) || occursIn pat rest

/-- Python's substring test `pat in path` on strings. -/
def strContains (path pat : String) : Bool := occursIn pat.data path.data

/-- The `count` computed by `process_dataset`: fold over `dataset_sizes` in
insertion order, overwriting `count` at every key that occurs in the path. -/
def countFor (path : String) : ℕ :=
  dataset_sizes.foldl (fun acc kv => if strContains path kv.1 then kv.2 else acc) 0

/-- The record-processing loop of `process_dataset`: decode each record with
`parse_tfrecord`, featurize it with `extract_features`, and accumulate the
feature vectors and labels in order; the first failure aborts the whole run
with no partial result. -/
noncomputable def processRecords : List RawRecord → Except String (List (List ℝ) × List Int)
  | [] => Except.ok ([], [])
  | r :: rest =>
    match parse_tfrecord r with
    | Except.error msg => Except.error msg
    | Except.ok e =>
      match processRecords rest with
      | Except.error msg => Except.error msg
      | Except.ok (X, y) =>
        Except.ok ((extract_features e).1 :: X, (extract_features e).2 :: y)

/-- `process_dataset` from the notebook: computes the printed example count
from the path and runs the decode-then-featurize pipeline over the file's
records; the count feeds only the printed message and the progress-bar
total. -/
noncomputable def process_dataset (path : String) (records : List RawRecord) :
    ℕ × Except String (List (List ℝ) × List Int) :=
  (countFor path, processRecords records)

/-- Spec-side formula for the mel portion of the feature vector, written the
way the claim states it: the mean over the 247 frames of the elementwise
natural log of the magnitude STFT projected onto the 128-bin mel matrix with
`1e-6` added. -/
noncomputable def melFormulaSpec (audio : List ℚ) (j : ℕ) : ℝ :=
  (∑ t ∈ Finset.range 247,
      Real.log ((∑ k ∈ Finset.range 513, Complex.abs (stft audio t k) * mel_mat k j) + 1e-6)) / 247

/-- Spec-side description of a record that parses successfully: all thirteen
fixed-length declared features are present with the declared type and shape
(audio exactly 64000 floats, qualities exactly 10 int64), and the
variable-length `qualities_str` feature, when present, is string-typed. -/
def wfRecord (r : RawRecord) : Prop :=
  (∃ v, r ("note") = some (FeatureList.int64List [v])) ∧
  (∃ s, r ("note_str") = some (FeatureList.bytesList [s])) ∧
  (∃ v, r ("instrument") = some (FeatureList.int64List [v])) ∧
  (∃ s, r ("instrument_str") = some (FeatureList.bytesList [s])) ∧
  (∃ v, r ("pitch") = some (FeatureList.int64List [v])) ∧
  (∃ v, r ("velocity") = some (FeatureList.int64List [v])) ∧
  (∃ v, r ("sample_rate") = some (FeatureList.int64List [v])) ∧
  (∃ xs, r ("audio") = some (FeatureList.floatList xs) ∧ xs.length = 64000) ∧
  (∃ xs, r ("qualities") = some (FeatureList.int64List xs) ∧ xs.length = 10) ∧
  (r ("qualities_str") = none ∨ ∃ xs, r ("qualities_str") = some (FeatureList.bytesList xs)) ∧
  (∃ v, r ("instrument_family") = some (FeatureList.int64List [v])) ∧
  (∃ s, r ("instrument_family_str") = some (FeatureList.bytesList [s])) ∧
  (∃ v, r ("instrument_source") = some (FeatureList.int64List [v])) ∧
  (∃ s, r ("instrument_source_str") = some (FeatureList.bytesList [s]))

/-- The claim's condition on records, taken literally: every one of the
fourteen declared features is contained in the record with its declared type
and shape — in particular, the variable-length `qualities_str` feature must
itself be present as a string feature. -/
def containsAll14 (r : RawRecord) : Prop :=
  (∃ v, r ("note") = some (FeatureList.int64List [v])) ∧
  (∃ s, r ("note_str") = some (FeatureList.bytesList [s])) ∧
  (∃ v, r ("instrument") = some (FeatureList.int64List [v])) ∧
  (∃ s, r ("instrument_str") = some (FeatureList.bytesList [s])) ∧
  (∃ v, r ("pitch") = some (FeatureList.int64List [v])) ∧
  (∃ v, r ("velocity") = some (FeatureList.int64List [v])) ∧
  (∃ v, r ("sample_rate") = some (FeatureList.int64List [v])) ∧
  (∃ xs, r ("audio") = some (FeatureList.floatList xs) ∧ xs.length = 64000) ∧
  (∃ xs, r ("qualities") = some (FeatureList.int64List xs) ∧ xs.length = 10) ∧
  (∃ xs, r ("qualities_str") = some (FeatureList.bytesList xs)) ∧
  (∃ v, r ("instrument_family") = some (FeatureList.int64List [v])) ∧
  (∃ s, r ("instrument_family_str") = some (FeatureList.bytesList [s])) ∧
  (∃ v, r ("instrument_source") = some (FeatureList.int64List [v])) ∧
  (∃ s, r ("instrument_source_str") = some (FeatureList.bytesList [s]))

/-- Spec-side description of the printed count: the size associated with the
last key among `train`, `valid`, `test` (in insertion order) that occurs as a
substring of the path, and `0` when none occurs. -/
def lastMatchSize (path : String) : ℕ :=
  (((dataset_sizes.filter (fun kv => strContains path kv.1)).getLast?).map Prod.snd).getD 0

/-- A concrete 4-second silent waveform: 64000 zero samples. -/
def audioZeros : List ℚ := List.replicate 64000 0

/-- A concrete well-formed record holding the thirteen fixed-length declared
features (and no `qualities_str`). -/
def Rfull : RawRecord := fun name =>
  if name = ("note") then some (FeatureList.int64List [60])
  else if name = ("note_str") then some (FeatureList.bytesList [("n60")])
  else if name = ("instrument") then some (FeatureList.int64List [1])
  else if name = ("instrument_str") then some (FeatureList.bytesList [("i1")])
  else if name = ("pitch") then some (FeatureList.int64List [60])
  else if name = ("velocity") then some (FeatureList.int64List [100])
  else if name = ("sample_rate") then some (FeatureList.int64List [16000])
  else if name = ("audio") then some (FeatureList.floatList audioZeros)
  else if name = ("qualities") then some (FeatureList.int64List [0, 0, 0, 0, 0, 0, 0, 0, 0, 0])
  else if name = ("instrument_family") then some (FeatureList.int64List [3])
  else if name = ("instrument_family_str") then some (FeatureList.bytesList [("fam")])
  else if name = ("instrument_source") then some (FeatureList.int64List [2])
  else if name = ("instrument_source_str") then some (FeatureList.bytesList [("src")])
  else none

/-- The parsed example that `Rfull` decodes to. -/
def eFull : ParsedExample :=
  ⟨60, ("n60"), 1, ("i1"), 60, 100, 16000, audioZeros,
   [0, 0, 0, 0, 0, 0, 0, 0, 0, 0], [], 3, ("fam"), 2, ("src")⟩

/-- A concrete parsed example equal to `eFull` except for the
`instrument_family` and `instrument_family_str` fields. -/
def eOtherFamily : ParsedExample :=
  ⟨60, ("n60"), 1, ("i1"), 60, 100, 16000, audioZeros,
   [0, 0, 0, 0, 0, 0, 0, 0, 0, 0], [], 7, ("other"), 2, ("src")⟩

/-- A concrete malformed record: it holds no feature at all. -/
def badRecord : RawRecord := fun _ => none


theorem exceptBind_eq_ok {α β : Type} (x : Except String α) (f : α → Except String β) (b : β) :
    (x >>= f) = Except.ok b ↔ ∃ a, x = Except.ok a ∧ f a = Except.ok b := by
  cases x with
  | error e => simp [Bind.bind, Except.bind]
  | ok a => simp [Bind.bind, Except.bind]

theorem getI_eq_ok (r : RawRecord) (name : String) (v : Int) :
    getI r name = Except.ok v ↔ r name = some (FeatureList.int64List [v]) := by
  unfold getI
  cases h : r name with
  | none => simp
  | some fl =>
    cases fl with
    | int64List xs =>
      match xs with
      | [] => simp
      | [a] => simp
      | a :: b :: t => simp
    | floatList xs => simp
    | bytesList xs => simp

theorem getS_eq_ok (r : RawRecord) (name : String) (s : String) :
    getS r name = Except.ok s ↔ r name = some (FeatureList.bytesList [s]) := by
  unfold getS
  cases h : r name with
  | none => simp
  | some fl =>
    cases fl with
    | int64List xs => simp
    | floatList xs => simp
    | bytesList xs =>
      match xs with
      | [] => simp
      | [a] => simp
      | a :: b :: t => simp

theorem getAudio_eq_ok (r : RawRecord) (xs : List ℚ) :
    getAudio r = Except.ok xs ↔
      r ("audio") = some (FeatureList.floatList xs) ∧ xs.length = 64000 := by
  unfold getAudio
  cases h : r ("audio") with
  | none => simp
  | some fl =>
    cases fl with
    | int64List ys => simp
    | floatList ys =>
      by_cases hl : ys.length = 64000
      · simp only [if_pos hl]
        constructor
        · intro he
          cases he
          exact ⟨rfl, hl⟩
        · rintro ⟨hy, -⟩
          cases hy
          rfl
      · simp only [if_neg hl]
        constructor
        · intro he
          cases he
        · rintro ⟨hy, hxl⟩
          cases hy
          exact absurd hxl hl
    | bytesList ys => simp

theorem getQualities_eq_ok (r : RawRecord) (xs : List Int) :
    getQualities r = Except.ok xs ↔
      r ("qualities") = some (FeatureList.int64List xs) ∧ xs.length = 10 := by
  unfold getQualities
  cases h : r ("qualities") with
  | none => simp
  | some fl =>
    cases fl with
    | floatList ys => simp
    | int64List ys =>
      by_cases hl : ys.length = 10
      · simp only [if_pos hl]
        constructor
        · intro he
          cases he
          exact ⟨rfl, hl⟩
        · rintro ⟨hy, -⟩
          cases hy
          rfl
      · simp only [if_neg hl]
        constructor
        · intro he
          cases he
        · rintro ⟨hy, hxl⟩
          cases hy
          exact absurd hxl hl
    | bytesList ys => simp

theorem getQualStr_eq_ok (r : RawRecord) (xs : List String) :
    getQualStr r = Except.ok xs ↔
      (r ("qualities_str") = none ∧ xs = []) ∨
        r ("qualities_str") = some (FeatureList.bytesList xs) := by
  unfold getQualStr
  cases h : r ("qualities_str") with
  | none => simp [eq_comm]
  | some fl =>
    cases fl with
    | int64List ys => simp
    | floatList ys => simp
    | bytesList ys => simp [eq_comm]

theorem parse_eq_ok (r : RawRecord) (e : ParsedExample) :
    parse_tfrecord r = Except.ok e ↔
      getI r ("note") = Except.ok e.note ∧
      getS r ("note_str") = Except.ok e.note_str ∧
      getI r ("instrument") = Except.ok e.instrument ∧
      getS r ("instrument_str") = Except.ok e.instrument_str ∧
      getI r ("pitch") = Except.ok e.pitch ∧
      getI r ("velocity") = Except.ok e.velocity ∧
      getI r ("sample_rate") = Except.ok e.sample_rate ∧
      getAudio r = Except.ok e.audio ∧
      getQualities r = Except.ok e.qualities ∧
      getQualStr r = Except.ok e.qualities_str ∧
      getI r ("instrument_family") = Except.ok e.instrument_family ∧
      getS r ("instrument_family_str") = Except.ok e.instrument_family_str ∧
      getI r ("instrument_source") = Except.ok e.instrument_source ∧
      getS r ("instrument_source_str") = Except.ok e.instrument_source_str := by
  constructor
  · intro h
    simp only [parse_tfrecord, exceptBind_eq_ok] at h
    obtain ⟨v1, h1, v2, h2, v3, h3, v4, h4, v5, h5, v6, h6, v7, h7, v8, h8, v9, h9,
      v10, h10, v11, h11, v12, h12, v13, h13, v14, h14, hp⟩ := h
    have he : (⟨v1, v2, v3, v4, v5, v6, v7, v8, v9, v10, v11, v12, v13, v14⟩ :
        ParsedExample) = e := by
      simpa [pure, Except.pure] using hp
    subst he
    exact ⟨h1, h2, h3, h4, h5, h6, h7, h8, h9, h10, h11, h12, h13, h14⟩
  · rintro ⟨h1, h2, h3, h4, h5, h6, h7, h8, h9, h10, h11, h12, h13, h14⟩
    simp only [parse_tfrecord, exceptBind_eq_ok]
    exact ⟨e.note, h1, e.note_str, h2, e.instrument, h3, e.instrument_str, h4,
      e.pitch, h5, e.velocity, h6, e.sample_rate, h7, e.audio, h8,
      e.qualities, h9, e.qualities_str, h10, e.instrument_family, h11,
      e.instrument_family_str, h12, e.instrument_source, h13,
      e.instrument_source_str, h14, rfl⟩

theorem parse_ok_iff_wf (r : RawRecord) :
    (∃ e, parse_tfrecord r = Except.ok e) ↔ wfRecord r := by
  constructor
  · rintro ⟨e, he⟩
    rw [parse_eq_ok] at he
    obtain ⟨h1, h2, h3, h4, h5, h6, h7, h8, h9, h10, h11, h12, h13, h14⟩ := he
    obtain ⟨ha, hal⟩ := (getAudio_eq_ok _ _).mp h8
    obtain ⟨hqv, hql⟩ := (getQualities_eq_ok _ _).mp h9
    refine ⟨⟨e.note, (getI_eq_ok _ _ _).mp h1⟩, ⟨e.note_str, (getS_eq_ok _ _ _).mp h2⟩,
      ⟨e.instrument, (getI_eq_ok _ _ _).mp h3⟩, ⟨e.instrument_str, (getS_eq_ok _ _ _).mp h4⟩,
      ⟨e.pitch, (getI_eq_ok _ _ _).mp h5⟩, ⟨e.velocity, (getI_eq_ok _ _ _).mp h6⟩,
      ⟨e.sample_rate, (getI_eq_ok _ _ _).mp h7⟩, ⟨e.audio, ha, hal⟩,
      ⟨e.qualities, hqv, hql⟩, ?_, ⟨e.instrument_family, (getI_eq_ok _ _ _).mp h11⟩,
      ⟨e.instrument_family_str, (getS_eq_ok _ _ _).mp h12⟩,
      ⟨e.instrument_source, (getI_eq_ok _ _ _).mp h13⟩,
      ⟨e.instrument_source_str, (getS_eq_ok _ _ _).mp h14⟩⟩
    rcases (getQualStr_eq_ok _ _).mp h10 with ⟨hn, -⟩ | hb
    · exact Or.inl hn
    · exact Or.inr ⟨e.qualities_str, hb⟩
  · intro h
    obtain ⟨⟨v1, h1⟩, ⟨s1, h2⟩, ⟨v2, h3⟩, ⟨s2, h4⟩, ⟨v3, h5⟩, ⟨v4, h6⟩, ⟨v5, h7⟩,
      ⟨xs, h8, hl⟩, ⟨qs, h9, hql⟩, h10, ⟨v6, h11⟩, ⟨s3, h12⟩, ⟨v7, h13⟩, ⟨s4, h14⟩⟩ := h
    have hq : ∃ qstr, getQualStr r = Except.ok qstr := by
      rcases h10 with hn | ⟨ys, hy⟩
      · exact ⟨[], (getQualStr_eq_ok _ _).mpr (Or.inl ⟨hn, rfl⟩)⟩
      · exact ⟨ys, (getQualStr_eq_ok _ _).mpr (Or.inr hy)⟩
    obtain ⟨qstr, hqs⟩ := hq
    refine ⟨⟨v1, s1, v2, s2, v3, v4, v5, xs, qs, qstr, v6, s3, v7, s4⟩, ?_⟩
    rw [parse_eq_ok]
    exact ⟨(getI_eq_ok _ _ _).mpr h1, (getS_eq_ok _ _ _).mpr h2,
      (getI_eq_ok _ _ _).mpr h3, (getS_eq_ok _ _ _).mpr h4,
      (getI_eq_ok _ _ _).mpr h5, (getI_eq_ok _ _ _).mpr h6,
      (getI_eq_ok _ _ _).mpr h7, (getAudio_eq_ok _ _).mpr ⟨h8, hl⟩,
      (getQualities_eq_ok _ _).mpr ⟨h9, hql⟩, hqs,
      (getI_eq_ok _ _ _).mpr h11, (getS_eq_ok _ _ _).mpr h12,
      (getI_eq_ok _ _ _).mpr h13, (getS_eq_ok _ _ _).mpr h14⟩

theorem parse_fields (r : RawRecord) (e : ParsedExample)
    (h : parse_tfrecord r = Except.ok e) :
    r ("note") = some (FeatureList.int64List [e.note]) ∧
    r ("note_str") = some (FeatureList.bytesList [e.note_str]) ∧
    r ("instrument") = some (FeatureList.int64List [e.instrument]) ∧
    r ("instrument_str") = some (FeatureList.bytesList [e.instrument_str]) ∧
    r ("pitch") = some (FeatureList.int64List [e.pitch]) ∧
    r ("velocity") = some (FeatureList.int64List [e.velocity]) ∧
    r ("sample_rate") = some (FeatureList.int64List [e.sample_rate]) ∧
    r ("audio") = some (FeatureList.floatList e.audio) ∧ e.audio.length = 64000 ∧
    r ("qualities") = some (FeatureList.int64List e.qualities) ∧ e.qualities.length = 10 ∧
    ((r ("qualities_str") = none ∧ e.qualities_str = []) ∨
      r ("qualities_str") = some (FeatureList.bytesList e.qualities_str)) ∧
    r ("instrument_family") = some (FeatureList.int64List [e.instrument_family]) ∧
    r ("instrument_family_str") = some (FeatureList.bytesList [e.instrument_family_str]) ∧
    r ("instrument_source") = some (FeatureList.int64List [e.instrument_source]) ∧
    r ("instrument_source_str") = some (FeatureList.bytesList [e.instrument_source_str]) := by
  rw [parse_eq_ok] at h
  obtain ⟨h1, h2, h3, h4, h5, h6, h7, h8, h9, h10, h11, h12, h13, h14⟩ := h
  obtain ⟨ha, hal⟩ := (getAudio_eq_ok _ _).mp h8
  obtain ⟨hqv, hql⟩ := (getQualities_eq_ok _ _).mp h9
  exact ⟨(getI_eq_ok _ _ _).mp h1, (getS_eq_ok _ _ _).mp h2,
    (getI_eq_ok _ _ _).mp h3, (getS_eq_ok _ _ _).mp h4,
    (getI_eq_ok _ _ _).mp h5, (getI_eq_ok _ _ _).mp h6,
    (getI_eq_ok _ _ _).mp h7, ha, hal, hqv, hql,
    (getQualStr_eq_ok _ _).mp h10,
    (getI_eq_ok _ _ _).mp h11, (getS_eq_ok _ _ _).mp h12,
    (getI_eq_ok _ _ _).mp h13, (getS_eq_ok _ _ _).mp h14⟩

theorem parse_Rfull : parse_tfrecord Rfull = Except.ok eFull := by
  rw [parse_eq_ok]
  refine ⟨(getI_eq_ok _ _ _).mpr (by simp [Rfull, eFull]),
    (getS_eq_ok _ _ _).mpr (by simp [Rfull, eFull]),
    (getI_eq_ok _ _ _).mpr (by simp [Rfull, eFull]),
    (getS_eq_ok _ _ _).mpr (by simp [Rfull, eFull]),
    (getI_eq_ok _ _ _).mpr (by simp [Rfull, eFull]),
    (getI_eq_ok _ _ _).mpr (by simp [Rfull, eFull]),
    (getI_eq_ok _ _ _).mpr (by simp [Rfull, eFull]),
    (getAudio_eq_ok _ _).mpr ⟨by simp [Rfull, eFull], List.length_replicate _ _⟩,
    (getQualities_eq_ok _ _).mpr ⟨by simp [Rfull, eFull], by simp [eFull]⟩,
    (getQualStr_eq_ok _ _).mpr (Or.inl ⟨by simp [Rfull], by simp [eFull]⟩),
    (getI_eq_ok _ _ _).mpr (by simp [Rfull, eFull]),
    (getS_eq_ok _ _ _).mpr (by simp [Rfull, eFull]),
    (getI_eq_ok _ _ _).mpr (by simp [Rfull, eFull]),
    (getS_eq_ok _ _ _).mpr (by simp [Rfull, eFull])⟩

theorem processRecords_ok :
    ∀ (rs : List RawRecord) (X : List (List ℝ)) (y : List Int),
      processRecords rs = Except.ok (X, y) →
      X.length = rs.length ∧ y.length = rs.length ∧
        ∀ i, i < rs.length →
          ∃ r e, rs[i]? = some r ∧ parse_tfrecord r = Except.ok e ∧
            X[i]? = some (extract_features e).1 ∧ y[i]? = some (extract_features e).2 := by
  intro rs
  induction rs with
  | nil =>
    intro X y h
    simp only [processRecords, Except.ok.injEq, Prod.mk.injEq] at h
    obtain ⟨hX, hy⟩ := h
    subst hX
    subst hy
    refine ⟨rfl, rfl, ?_⟩
    intro i hi
    exact absurd hi (by simp)
  | cons r rest ih =>
    intro X y h
    simp only [processRecords] at h
    cases hp : parse_tfrecord r with
    | error msg => rw [hp] at h; exact absurd h (by simp)
    | ok e =>
      rw [hp] at h
      cases hq : processRecords rest with
      | error msg => rw [hq] at h; exact absurd h (by simp)
      | ok Xy =>
        obtain ⟨Xr, yr⟩ := Xy
        rw [hq] at h
        simp only [Except.ok.injEq, Prod.mk.injEq] at h
        obtain ⟨hX, hy⟩ := h
        subst hX
        subst hy
        obtain ⟨hl1, hl2, hptr⟩ := ih Xr yr hq
        refine ⟨by simp [hl1], by simp [hl2], ?_⟩
        intro i hi
        cases i with
        | zero => exact ⟨r, e, by simp, hp, by simp, by simp⟩
        | succ n =>
          have hn : n < rest.length := by
            simpa [Nat.succ_lt_succ_iff] using hi
          obtain ⟨r2, e2, g1, g2, g3, g4⟩ := hptr n hn
          exact ⟨r2, e2, by simpa using g1, g2, by simpa using g3, by simpa using g4⟩

theorem processRecords_error :
    ∀ (rs : List RawRecord) (i : ℕ) (r : RawRecord) (msg : String),
      rs[i]? = some r →
      (∀ j, j < i → ∀ rj, rs[j]? = some rj → ∃ e, parse_tfrecord rj = Except.ok e) →
      parse_tfrecord r = Except.error msg →
      processRecords rs = Except.error msg := by
  intro rs
  induction rs with
  | nil =>
    intro i r msg hi _ _
    simp at hi
  | cons a rest ih =>
    intro i r msg hi hok hbad
    cases i with
    | zero =>
      simp only [List.getElem?_cons_zero, Option.some.injEq] at hi
      subst hi
      simp only [processRecords, hbad]
    | succ n =>
      have ⟨e, he⟩ := hok 0 (Nat.succ_pos n) a (by simp)
      have hrest : processRecords rest = Except.error msg := by
        refine ih n r msg (by simpa using hi) ?_ hbad
        intro j hj rj hrj
        exact hok (j + 1) (Nat.succ_lt_succ hj) rj (by simpa using hrj)
      simp only [processRecords, he, hrest]

theorem mel_mat_nonneg (k j : ℕ) : 0 ≤ mel_mat k j := by
  unfold mel_mat
  split
  · exact le_refl 0
  · exact le_max_left 0 _

theorem spectogram_nonneg (audio : List ℚ) (t k : ℕ) : 0 ≤ spectogram audio t k :=
  Complex.abs.nonneg _

theorem mel_spec_nonneg (audio : List ℚ) (t j : ℕ) : 0 ≤ mel_spec audio t j :=
  Finset.sum_nonneg fun k _ => mul_nonneg (spectogram_nonneg audio t k) (mel_mat_nonneg k j)

theorem logEps_pos : (0 : ℝ) < logEps := by norm_num [logEps]

theorem numFrames_64000 : numFrames 64000 = 247 := by decide

theorem numBins_eq : numBins = 513 := by decide

theorem melSummary_eq_formula (audio : List ℚ) (h : audio.length = 64000) (j : ℕ) :
    melSummary audio j = melFormulaSpec audio j := by
  unfold melSummary melFormulaSpec log_mel_spec mel_spec spectogram
  rw [h, numFrames_64000, numBins_eq]
  norm_num [logEps]

theorem countFor_eq_lastMatch (path : String) : countFor path = lastMatchSize path := by
  cases h1 : strContains path ("train") <;>
    cases h2 : strContains path ("valid") <;>
      cases h3 : strContains path ("test") <;>
        simp [countFor, lastMatchSize, dataset_sizes, h1, h2, h3]

/-- Claim C1: for every parsed example, `extract_features` returns a feature
vector of one fixed length — 5 metadata components followed by the
128-dimensional mel summary, 133 components in total — and this length is
the same for all inputs. -/
theorem extract_features_length (e1 e2 : ParsedExample) :
    (extract_features e1).1.length = 133 ∧
      (extract_features e1).1.length = 5 + 128 ∧
      (extract_features e1).1.length = (extract_features e2).1.length := by
  refine ⟨?_, ?_, ?_⟩ <;>
    simp only [extract_features, List.length_append, List.length_map, List.length_ofFn,
      List.length_cons, List.length_nil, N_MELS] <;> omega

/-- Claim C2: the metadata portion of the feature vector equals the input
metadata: the first five components are the float casts of `note`, `pitch`,
`velocity`, `sample_rate` and `instrument_source`, passed through
unchanged. -/
theorem extract_features_metadata (e : ParsedExample) :
    (extract_features e).1.take 5 =
      [(e.note : ℝ), (e.pitch : ℝ), (e.velocity : ℝ), (e.sample_rate : ℝ),
        (e.instrument_source : ℝ)] := by
  rfl

/-- Claim C7: `extract_features` is deterministic — on equal parsed examples
it returns identical feature-vector/label pairs, a function of the example's
fields alone. -/
theorem extract_features_deterministic (e1 e2 : ParsedExample) (h : e1 = e2) :
    extract_features e1 = extract_features e2 := by
  rw [h]

/-- Witness for the determinism claim at a concrete parsed example. -/
theorem extract_features_deterministic_witness :
    extract_features eFull = extract_features eFull :=
  extract_features_deterministic eFull eFull rfl

/-- Claim C8: the returned label equals the example's `instrument_family`
field, and the feature vector does not depend on that label: two parsed
examples that differ only in `instrument_family` and `instrument_family_str`
get the same feature vector. -/
theorem extract_features_label (e1 e2 : ParsedExample)
    (hnote : e1.note = e2.note) (hnstr : e1.note_str = e2.note_str)
    (hinst : e1.instrument = e2.instrument) (histr : e1.instrument_str = e2.instrument_str)
    (hpitch : e1.pitch = e2.pitch) (hvel : e1.velocity = e2.velocity)
    (hsr : e1.sample_rate = e2.sample_rate) (haud : e1.audio = e2.audio)
    (hq : e1.qualities = e2.qualities) (hqs : e1.qualities_str = e2.qualities_str)
    (hsrc : e1.instrument_source = e2.instrument_source)
    (hsstr : e1.instrument_source_str = e2.instrument_source_str) :
    (extract_features e1).2 = e1.instrument_family ∧
      (extract_features e2).2 = e2.instrument_family ∧
      (extract_features e1).1 = (extract_features e2).1 := by
  refine ⟨rfl, rfl, ?_⟩
  simp only [extract_features]
  rw [hnote, hpitch, hvel, hsr, hsrc, haud]

/-- Witness for the label claim at two concrete examples differing only in
their instrument-family fields. -/
theorem extract_features_label_witness :
    (extract_features eFull).2 = eFull.instrument_family ∧
      (extract_features eOtherFamily).2 = eOtherFamily.instrument_family ∧
      (extract_features eFull).1 = (extract_features eOtherFamily).1 :=
  extract_features_label eFull eOtherFamily rfl rfl rfl rfl rfl rfl rfl rfl rfl rfl rfl rfl

/-- Claim C9: for every parsed example, every entry fed to the logarithm is
strictly positive: the mel spectrogram is a nonnegative combination of STFT
magnitudes, so every entry of `mel_spec + 1e-6` is at least `1e-6`, and the
log argument is positive (hence the logarithm is well-defined and every
feature-vector component is a well-defined real). -/
theorem mel_log_argument_pos (e : ParsedExample) (t j : ℕ) :
    0 ≤ mel_spec e.audio t j ∧
      (1e-6 : ℝ) ≤ mel_spec e.audio t j + logEps ∧
      0 < mel_spec e.audio t j + logEps := by
  have h0 := mel_spec_nonneg e.audio t j
  have he : (1e-6 : ℝ) = logEps := rfl
  refine ⟨h0, ?_, ?_⟩
  · rw [he]
    exact le_add_of_nonneg_left h0
  · have hp := logEps_pos
    linarith

/-- Claim C10: the count printed by `process_dataset` is the size attached to
the last key among `train`, `valid`, `test` (in insertion order) occurring as
a substring of the path — `0` when none occurs — and the count never affects
the returned feature and label lists. -/
theorem process_dataset_count (path other : String) (rs : List RawRecord) :
    (process_dataset path rs).1 = lastMatchSize path ∧
      (process_dataset path rs).2 = (process_dataset other rs).2 :=
  ⟨countFor_eq_lastMatch path, rfl⟩

/-- Claim C3: the mel portion of the feature vector is exactly the stated
composition of stages: STFT of the 64000-sample waveform (frame length 1024,
hop 256), magnitude, projection onto the 128-bin mel matrix, natural log of
the result plus `1e-6`, then the mean over the time axis. -/
theorem extract_features_mel_formula (e : ParsedExample) (h : e.audio.length = 64000) :
    (extract_features e).1.drop 5 = List.ofFn (fun j : Fin 128 => melFormulaSpec e.audio j) := by
  have hdrop : (extract_features e).1.drop 5 =
      List.ofFn (fun j : Fin N_MELS => melSummary e.audio j) := by
    simp only [extract_features]
    have h5 : ([e.note, e.pitch, e.velocity, e.sample_rate, e.instrument_source].map
        (fun v : Int => (v : ℝ))).length = 5 := rfl
    rw [show (5 : ℕ) = ([e.note, e.pitch, e.velocity, e.sample_rate,
      e.instrument_source].map (fun v : Int => (v : ℝ))).length from h5.symm]
    exact List.drop_left _ _
  rw [hdrop]
  exact congrArg List.ofFn (funext fun j => melSummary_eq_formula e.audio h j)

/-- Witness for the mel-formula claim at a concrete parsed example with a
64000-sample waveform. -/
theorem extract_features_mel_formula_witness :
    (extract_features eFull).1.drop 5 =
      List.ofFn (fun j : Fin 128 => melFormulaSpec eFull.audio j) :=
  extract_features_mel_formula eFull (List.length_replicate _ _)

/-- Claim C4: whenever `process_dataset` returns, the feature and label lists
both have one entry per input record, in input order, and entry `i` is
exactly `extract_features` applied to the parse of record `i`; the library's
parallel map is modelled by its documented deterministic, order-preserving
semantics. -/
theorem process_dataset_snd (path : String) (rs : List RawRecord) :
    (process_dataset path rs).2 = processRecords rs := rfl

theorem process_dataset_ok (path : String) (rs : List RawRecord)
    (X : List (List ℝ)) (y : List Int)
    (h : (process_dataset path rs).2 = Except.ok (X, y)) :
    X.length = rs.length ∧ y.length = rs.length ∧
      ∀ i, i < rs.length →
        ∃ r e, rs[i]? = some r ∧ parse_tfrecord r = Except.ok e ∧
          X[i]? = some (extract_features e).1 ∧ y[i]? = some (extract_features e).2 :=
  processRecords_ok rs X y h

/-- Witness for the dataset-processing claim on a one-record input. -/
theorem process_dataset_ok_witness :
    [(extract_features eFull).1].length = [Rfull].length ∧
      [(extract_features eFull).2].length = [Rfull].length ∧
      ∀ i, i < [Rfull].length →
        ∃ r e, [Rfull][i]? = some r ∧ parse_tfrecord r = Except.ok e ∧
          [(extract_features eFull).1][i]? = some (extract_features e).1 ∧
          [(extract_features eFull).2][i]? = some (extract_features e).2 :=
  process_dataset_ok ("p") [Rfull] _ _
    (by rw [process_dataset_snd, processRecords, parse_Rfull, processRecords])

/-- Claim C5: a parse failure on any record propagates uncaught out of
`process_dataset` — the whole run returns exactly the failure raised by the
underlying parse of the first bad record, with no retry, no recovery and no
partial result. -/
theorem process_dataset_error (path : String) (rs : List RawRecord) (i : ℕ)
    (r : RawRecord) (msg : String)
    (h1 : rs[i]? = some r)
    (h2 : ∀ j, j < i → ∀ rj, rs[j]? = some rj → ∃ e, parse_tfrecord rj = Except.ok e)
    (h3 : parse_tfrecord r = Except.error msg) :
    (process_dataset path rs).2 = Except.error msg :=
  processRecords_error rs i r msg h1 h2 h3

/-- Witness for the failure-propagation claim on a one-record input holding a
malformed record. -/
theorem process_dataset_error_witness :
    (process_dataset ("p") [badRecord]).2 =
      Except.error (("note") ++ ": missing or malformed scalar int64 feature") :=
  process_dataset_error ("p") [badRecord] 0 badRecord _ (by simp)
    (fun j hj => absurd hj (by omega)) rfl

/-- Counterexample to claim C6 as stated: the record `Rfull` holds the
thirteen fixed-length declared features but not the fourteenth declared
feature `qualities_str`, yet `parse_tfrecord` succeeds on it — success is not
equivalent to containing every one of the fourteen declared features. -/
theorem parse_fourteen_counterexample :
    ¬ ((∃ e, parse_tfrecord Rfull = Except.ok e) ↔ containsAll14 Rfull) := by
  intro hiff
  have h14 := hiff.mp ⟨eFull, parse_Rfull⟩
  obtain ⟨-, -, -, -, -, -, -, -, -, ⟨xs, hq⟩, -, -, -, -⟩ := h14
  have hnone : Rfull ("qualities_str") = none := by simp [Rfull]
  rw [hnone] at hq
  cases hq

/-- Claim C6 (amended): `parse_tfrecord` succeeds on a record exactly when
the thirteen fixed-length declared features are present with their declared
type and shape — audio exactly 64000 float32 samples, qualities exactly 10
int64 values — and the variable-length `qualities_str` feature, when present,
is string-typed; on success every field value is returned unchanged (an
absent `qualities_str` parses as the empty list). -/
theorem parse_ok_iff_wf13 (r : RawRecord) :
    ((∃ e, parse_tfrecord r = Except.ok e) ↔ wfRecord r) ∧
      ∀ e, parse_tfrecord r = Except.ok e →
        r ("note") = some (FeatureList.int64List [e.note]) ∧
        r ("note_str") = some (FeatureList.bytesList [e.note_str]) ∧
        r ("instrument") = some (FeatureList.int64List [e.instrument]) ∧
        r ("instrument_str") = some (FeatureList.bytesList [e.instrument_str]) ∧
        r ("pitch") = some (FeatureList.int64List [e.pitch]) ∧
        r ("velocity") = some (FeatureList.int64List [e.velocity]) ∧
        r ("sample_rate") = some (FeatureList.int64List [e.sample_rate]) ∧
        r ("audio") = some (FeatureList.floatList e.audio) ∧ e.audio.length = 64000 ∧
        r ("qualities") = some (FeatureList.int64List e.qualities) ∧
          e.qualities.length = 10 ∧
        ((r ("qualities_str") = none ∧ e.qualities_str = []) ∨
          r ("qualities_str") = some (FeatureList.bytesList e.qualities_str)) ∧
        r ("instrument_family") = some (FeatureList.int64List [e.instrument_family]) ∧
        r ("instrument_family_str") =
          some (FeatureList.bytesList [e.instrument_family_str]) ∧
        r ("instrument_source") = some (FeatureList.int64List [e.instrument_source]) ∧
        r ("instrument_source_str") =
          some (FeatureList.bytesList [e.instrument_source_str]) :=
  ⟨parse_ok_iff_wf r, fun e he => parse_fields r e he⟩

/-- Witness for the amended parsing claim at a concrete well-formed record. -/
theorem parse_ok_iff_wf13_witness :
    (∃ e, parse_tfrecord Rfull = Except.ok e) ∧
      Rfull ("note") = some (FeatureList.int64List [eFull.note]) := by
  refine ⟨(parse_ok_iff_wf13 Rfull).1.mpr ?_,
    ((parse_ok_iff_wf13 Rfull).2 eFull parse_Rfull).1⟩
  exact ⟨⟨60, by simp [Rfull]⟩, ⟨("n60"), by simp [Rfull]⟩, ⟨1, by simp [Rfull]⟩,
    ⟨("i1"), by simp [Rfull]⟩, ⟨60, by simp [Rfull]⟩, ⟨100, by simp [Rfull]⟩,
    ⟨16000, by simp [Rfull]⟩,
    ⟨audioZeros, by simp [Rfull], List.length_replicate _ _⟩,
    ⟨[0, 0, 0, 0, 0, 0, 0, 0, 0, 0], by simp [Rfull], by simp⟩,
    Or.inl (by simp [Rfull]),
    ⟨3, by simp [Rfull]⟩, ⟨("fam"), by simp [Rfull]⟩, ⟨2, by simp [Rfull]⟩,
    ⟨("src"), by simp [Rfull]⟩⟩
